import Mathlib

/-!
Verification of the ILI9488 DRM panel driver (ili9488_v2p0.c).

The driver's update pipeline is embedded shallowly: every function that
touches the bus is modelled as a pure function producing the ordered list
of externally observable events (bus commands, data bursts, error logs,
delays, backlight changes).  Pixel buffers are lists of natural-number
pixel values; wire buffers are lists of bytes (naturals below 256).
-/

/-- Display command opcodes, from the ILI9488 datasheet defines in the
driver source. -/
def ILI9488_CMD_SLEEP_OUT : Nat := 0x11

def ILI9488_CMD_DISPLAY_OFF : Nat := 0x28

def ILI9488_CMD_DISPLAY_ON : Nat := 0x29

def ILI9488_CMD_MEMORY_ACCESS_CONTROL : Nat := 0x36

def ILI9488_CMD_SET_ADDRESS_MODE : Nat := 0x36

def ILI9488_CMD_POSITIVE_GAMMA_CORRECTION : Nat := 0xE0

def ILI9488_CMD_NEGATIVE_GAMMA_CORRECTION : Nat := 0xE1

def ILI9488_CMD_POWER_CONTROL_1 : Nat := 0xC0

def ILI9488_CMD_POWER_CONTROL_2 : Nat := 0xC1

def ILI9488_CMD_VCOM_CONTROL_1 : Nat := 0xC5

def ILI9488_CMD_FRAME_RATE_CONTROL_NORMAL : Nat := 0xB1

def ILI9488_CMD_DISPLAY_INVERSION_CONTROL : Nat := 0xB4

def ILI9488_CMD_DISPLAY_FUNCTION_CONTROL : Nat := 0xB6

def ILI9488_CMD_ENTRY_MODE_SET : Nat := 0xB7

def ILI9488_CMD_INTERFACE_MODE_CONTROL : Nat := 0xB0

def ILI9488_CMD_ADJUST_CONTROL_3 : Nat := 0xF7

def ILI9488_CMD_NORMAL_DISP_MODE_ON : Nat := 0x13

def ILI9488_CMD_COLMOD_PIXEL_FORMAT_SET : Nat := 0x3A

/-- Memory Access Control bits (BIT(3), BIT(5), BIT(6), BIT(7)). -/
def ILI9488_MADCTL_BGR : Nat := 8

def ILI9488_MADCTL_MV : Nat := 32

def ILI9488_MADCTL_MX : Nat := 64

def ILI9488_MADCTL_MY : Nat := 128

/-- MIPI DCS opcodes used by the driver (from video/mipi_display.h). -/
def MIPI_DCS_SET_COLUMN_ADDRESS : Nat := 0x2A

def MIPI_DCS_SET_PAGE_ADDRESS : Nat := 0x2B

def MIPI_DCS_WRITE_MEMORY_START : Nat := 0x2C

def MIPI_DCS_PIXEL_FMT_18BIT : Nat := 6

/-- Kernel error number EINVAL; the driver returns -EINVAL for an
unsupported framebuffer format. -/
def EINVAL : Int := 22

/-- The source pixel formats that can reach the driver, mirroring the
switch in mipi_dbi18_buf_copy: DRM_FORMAT_RGB565, DRM_FORMAT_XRGB8888,
or any other fourcc code (the default case). -/
inductive drm_format where
  | RGB565 : drm_format
  | XRGB8888 : drm_format
  | other : Nat → drm_format
deriving DecidableEq, Repr

/-- True for the two formats the driver advertises and converts. -/
def drm_format.supported : drm_format → Bool
  | .RGB565 => true
  | .XRGB8888 => true
  | .other _ => false

/-- A damage rectangle, half open on x2 and y2 (struct drm_rect). -/
structure drm_rect where
  x1 : Nat
  y1 : Nat
  x2 : Nat
  y2 : Nat
deriving DecidableEq, Repr

/-- Rate-limited error-log call sites in the driver (each a distinct
drm_err_once invocation). -/
inductive LogTag where
  | copyFail : LogTag
  | memFail : LogTag
  | poweronFail : LogTag
deriving DecidableEq, Repr

/-- An externally observable action of the driver: a parameterised bus
command (mipi_dbi_command), a data burst (mipi_dbi_command_buf), an
invocation of the buffer converter, a rate-limited error log, a blocking
delay (msleep), or enabling the backlight. -/
inductive Event where
  | cmd : Nat → List Nat → Event
  | cmdBuf : Nat → List Nat → Event
  | convCall : drm_format → Bool → Event
  | errOnce : LogTag → Int → Event
  | delayMs : Nat → Event
  | backlightOn : Event
deriving DecidableEq, Repr

/-- True exactly for events that put bytes on the bus (commands and
data bursts). -/
def Event.isBusTraffic : Event → Bool
  | .cmd _ _ => true
  | .cmdBuf _ _ => true
  | _ => false

/-- True exactly for data-burst events. -/
def Event.isBurst : Event → Bool
  | .cmdBuf _ _ => true
  | _ => false

/-- Little-endian byte serialisation of a 16-bit pixel word. -/
def le16bytes (v : Nat) : List Nat := [v % 2 ^ 8, v / 2 ^ 8 % 2 ^ 8]

/-- The two bytes of a 16-bit pixel word in reversed (swabbed) order. -/
def swab16bytes (v : Nat) : List Nat := [v / 2 ^ 8 % 2 ^ 8, v % 2 ^ 8]

/-- The low three bytes of a 32-bit XRGB8888 pixel value in little-endian
memory order: blue, green, red; the top (X) byte is dropped. -/
def rgb888bytes (v : Nat) : List Nat :=
  [v % 2 ^ 8, v / 2 ^ 8 % 2 ^ 8, v / 2 ^ 16 % 2 ^ 8]

/-- Embeds the Linux DRM format helper drm_fb_memcpy as invoked by the
driver on a DRM_FORMAT_RGB565 clip: a byte-for-byte copy of the clip
rows, i.e. the little-endian bytes of each 16-bit pixel, two bytes per
pixel, with no expansion. -/
def drm_fb_memcpy (clipPixels : List Nat) : List Nat :=
  (clipPixels.map le16bytes).flatten

/-- Embeds the Linux DRM format helper drm_fb_swab for a 2-byte format:
the two bytes of every 16-bit pixel word are swapped (swab16); still two
bytes per pixel. -/
def drm_fb_swab (clipPixels : List Nat) : List Nat :=
  (clipPixels.map swab16bytes).flatten

/-- Embeds the Linux DRM format helper drm_fb_xrgb8888_to_rgb888: each
32-bit pixel value is written as its three low bytes in little-endian
order (blue, green, red); the unused top byte is dropped. -/
def drm_fb_xrgb8888_to_rgb888 (clipPixels : List Nat) : List Nat :=
  (clipPixels.map rgb888bytes).flatten

/-- mipi_dbi18_buf_copy (driver source, lines 124-163): dispatches on
the framebuffer format.  RGB565 with swap requested goes through
drm_fb_swab, RGB565 without swap through drm_fb_memcpy, XRGB8888 (swap
ignored) through drm_fb_xrgb8888_to_rgb888, and any other format returns
-EINVAL after logging.  The converted bytes land in the caller-supplied
scratch buffer; here they are the returned list. -/
def mipi_dbi18_buf_copy (fmt : drm_format) (clipPixels : List Nat)
    (swap : Bool) : Except Int (List Nat) :=
  match fmt with
  | .RGB565 =>
      if swap then .ok (drm_fb_swab clipPixels)
      else .ok (drm_fb_memcpy clipPixels)
  | .XRGB8888 => .ok (drm_fb_xrgb8888_to_rgb888 clipPixels)
  | .other _ => .error (-EINVAL)

/-- mipi_dbi_set_window_address (driver source, lines 99-117): adds the
panel offsets to all four coordinates (32-bit unsigned arithmetic) and
emits the column-address command followed by the page-address command,
each carrying start and end as two bytes, high byte first
((v >> 8) & 0xff then v & 0xff). -/
def mipi_dbi_set_window_address (left top xs0 xe0 ys0 ye0 : Nat) :
    List Event :=
  let xs := (xs0 + left) % 2 ^ 32
  let xe := (xe0 + left) % 2 ^ 32
  let ys := (ys0 + top) % 2 ^ 32
  let ye := (ye0 + top) % 2 ^ 32
  [Event.cmd MIPI_DCS_SET_COLUMN_ADDRESS
      [xs / 2 ^ 8 % 2 ^ 8, xs % 2 ^ 8, xe / 2 ^ 8 % 2 ^ 8, xe % 2 ^ 8],
   Event.cmd MIPI_DCS_SET_PAGE_ADDRESS
      [ys / 2 ^ 8 % 2 ^ 8, ys % 2 ^ 8, ye / 2 ^ 8 % 2 ^ 8, ye % 2 ^ 8]]

/-- The bytes handed to mipi_dbi_command_buf: the transport reads n
bytes starting at the given buffer; bytes past the portion actually
written (the converter output, or the mapped source pixels) come from
whatever lies beyond in memory, modelled by the function rest. -/
def txBytes (written : List Nat) (rest : Nat → Nat) (n : Nat) : List Nat :=
  (List.range n).map fun i => written.getD i (rest i)

/-- The per-device inputs of a flush that do not depend on the damage
rectangle: the liveness-guard outcome (drm_dev_enter), the vmap outcome,
whether the bus has a data/command line (dbi->dc), the panel offsets,
the frame dimensions, the framebuffer format, the byte-swap flag
(dbi->swap_bytes), the clip's pixel values, the raw mapped framebuffer
bytes (data[0].vaddr), the prior contents of the scratch transmit buffer
(dbidev->tx_buf), the memory lying beyond the mapped source, and the
return code the transport gives the data burst. -/
structure DirtyEnv where
  devEntered : Bool
  vmapOk : Bool
  dc : Bool
  left : Nat
  top : Nat
  fbw : Nat
  fbh : Nat
  fmt : drm_format
  swap : Bool
  clipPixels : List Nat
  fbBytes : List Nat
  scratchOld : Nat → Nat
  srcBeyond : Nat → Nat
  burstRet : Int

/-- The result a flush delivers: the event trace it produced and the
value returned to its caller.  mipi_dbi18_fb_dirty is declared void in
the source, so the returned value is the unit value. -/
structure FlushOut where
  ret : Unit
  events : List Event

/-- The copy-path condition of mipi_dbi18_fb_dirty, line 207: the copy
path is taken when the bus has no data/command line, or the rectangle is
not the full frame, or byte-swap is requested, or the format is
XRGB8888. -/
def dirty_copy_path (dc : Bool) (full : Bool) (swap : Bool)
    (fmt : drm_format) : Bool :=
  !dc || !full || swap || fmt == drm_format.XRGB8888

/-- mipi_dbi18_fb_dirty (driver source, lines 170-234).  Returns without
any event if the liveness guard fails or the vmap fails.  Otherwise it
decides the path: on the copy path it invokes mipi_dbi18_buf_copy into
the scratch buffer, and on a conversion failure logs the copy error and,
reaching err_msg with a nonzero ret, also logs the update error, issuing
no window commands and no burst.  On success (either path) it emits the
window-address commands, then a single data burst of
width * height * 3 bytes taken from the chosen buffer, and finally logs
once if the transport reported a failure.  The function is void: ret is
discarded at exit. -/
def mipi_dbi18_fb_dirty (env : DirtyEnv) (rect : drm_rect) : FlushOut :=
  if !env.devEntered then ⟨(), []⟩
  else if !env.vmapOk then ⟨(), []⟩
  else
    let width := rect.x2 - rect.x1
    let height := rect.y2 - rect.y1
    let full := width == env.fbw && height == env.fbh
    let window := mipi_dbi_set_window_address env.left env.top
      rect.x1 (rect.x2 - 1) rect.y1 (rect.y2 - 1)
    let errTail : Int → List Event := fun ret =>
      if ret ≠ 0 then [Event.errOnce .memFail ret] else []
    if dirty_copy_path env.dc full env.swap env.fmt then
      match mipi_dbi18_buf_copy env.fmt env.clipPixels env.swap with
      | .error e =>
          ⟨(), [Event.convCall env.fmt env.swap,
                Event.errOnce .copyFail e] ++ errTail e⟩
      | .ok conv =>
          ⟨(), [Event.convCall env.fmt env.swap] ++ window ++
               [Event.cmdBuf MIPI_DCS_WRITE_MEMORY_START
                  (txBytes conv env.scratchOld (width * height * 3))] ++
               errTail env.burstRet⟩
    else
      ⟨(), window ++
           [Event.cmdBuf MIPI_DCS_WRITE_MEMORY_START
              (txBytes env.fbBytes env.srcBeyond (width * height * 3))] ++
           errTail env.burstRet⟩

/-- mipi_dbi18_enable_flush (driver source, lines 257-277): under its own
liveness guard, performs one full-frame flush (rectangle 0,0 to
fbw,fbh) and then enables the shared backlight. -/
def mipi_dbi18_enable_flush (env : DirtyEnv) : List Event :=
  if !env.devEntered then []
  else
    (mipi_dbi18_fb_dirty env ⟨0, 0, env.fbw, env.fbh⟩).events ++
      [Event.backlightOn]

/-- The tri-state result of mipi_dbi_poweron_conditional_reset: a
negative error code, 1 when the panel retained its configuration, or 0
when initialisation is needed. -/
inductive PoweronResult where
  | failed : Int → PoweronResult
  | alreadyInit : PoweronResult
  | needsInit : PoweronResult
deriving DecidableEq, Repr

/-- The rotation-to-address-mode switch of sx035hv006_enable, lines
382-396: 90 maps to row/column swap, 180 to mirror-Y, 270 to the
combination, and every other value falls into the default case,
mirror-X. -/
def sx035hv006_addr_mode (rotation : Nat) : Nat :=
  match rotation with
  | 90 => ILI9488_MADCTL_MV
  | 180 => ILI9488_MADCTL_MY
  | 270 => ILI9488_MADCTL_MV ||| ILI9488_MADCTL_MY ||| ILI9488_MADCTL_MX
  | _ => ILI9488_MADCTL_MX

/-- The fixed configuration command sequence of sx035hv006_enable,
lines 327-378, in source order, with the two mandatory settle delays. -/
def ili9488_init_commands : List Event :=
  [Event.cmd ILI9488_CMD_DISPLAY_OFF [],
   Event.cmd ILI9488_CMD_POSITIVE_GAMMA_CORRECTION
     [0x00, 0x03, 0x09, 0x08, 0x16, 0x0a, 0x3f, 0x78, 0x4c, 0x09,
      0x0a, 0x08, 0x16, 0x1a, 0x0f],
   Event.cmd ILI9488_CMD_NEGATIVE_GAMMA_CORRECTION
     [0x00, 0x16, 0x19, 0x03, 0x0f, 0x05, 0x32, 0x45, 0x46, 0x04,
      0x0e, 0x0d, 0x35, 0x37, 0x0f],
   Event.cmd ILI9488_CMD_POWER_CONTROL_1 [0x17, 0x15],
   Event.cmd ILI9488_CMD_POWER_CONTROL_2 [0x41],
   Event.cmd ILI9488_CMD_VCOM_CONTROL_1 [0x00, 0x12, 0x80],
   Event.cmd ILI9488_CMD_MEMORY_ACCESS_CONTROL [0x48],
   Event.cmd ILI9488_CMD_COLMOD_PIXEL_FORMAT_SET
     [MIPI_DCS_PIXEL_FMT_18BIT <<< 1 ||| MIPI_DCS_PIXEL_FMT_18BIT],
   Event.cmd ILI9488_CMD_INTERFACE_MODE_CONTROL [0x00],
   Event.cmd ILI9488_CMD_FRAME_RATE_CONTROL_NORMAL [0xA0],
   Event.cmd ILI9488_CMD_DISPLAY_INVERSION_CONTROL [0x02],
   Event.cmd ILI9488_CMD_DISPLAY_FUNCTION_CONTROL [0x02, 0x02, 0x3B],
   Event.cmd ILI9488_CMD_ENTRY_MODE_SET [0xC6],
   Event.cmd ILI9488_CMD_ADJUST_CONTROL_3 [0xa9, 0x51, 0x2c, 0x82],
   Event.cmd ILI9488_CMD_SLEEP_OUT [],
   Event.delayMs 120,
   Event.cmd ILI9488_CMD_NORMAL_DISP_MODE_ON [],
   Event.cmd ILI9488_CMD_DISPLAY_ON [],
   Event.delayMs 100]

/-- sx035hv006_enable (driver source, lines 302-409).  Under the
liveness guard: a failed power-on/reset logs once and aborts; a result
of 1 (already initialised) jumps straight to the address-mode command;
a result of 0 runs the full configuration sequence first.  Both
non-failing cases then issue the rotation-derived address-mode command
and run mipi_dbi18_enable_flush (one full-frame flush, then backlight
on). -/
def sx035hv006_enable (devEntered : Bool) (pwr : PoweronResult)
    (rotation : Nat) (env : DirtyEnv) : List Event :=
  if !devEntered then []
  else
    match pwr with
    | .failed code => [Event.errOnce .poweronFail code]
    | .alreadyInit =>
        [Event.cmd ILI9488_CMD_SET_ADDRESS_MODE
           [sx035hv006_addr_mode rotation]] ++
          mipi_dbi18_enable_flush env
    | .needsInit =>
        ili9488_init_commands ++
          [Event.cmd ILI9488_CMD_SET_ADDRESS_MODE
             [sx035hv006_addr_mode rotation]] ++
          mipi_dbi18_enable_flush env

/-- The device-liveness collaborator: drm_dev_enter succeeds exactly
while the device has not been unplugged. -/
def drm_dev_enter (unplugged : Bool) : Bool := !unplugged

/-- ili9488_remove (driver source, lines 561-570) calls drm_dev_unplug,
after which every drm_dev_enter fails; modelled on the unplugged flag. -/
def ili9488_remove (_ : Bool) : Bool := true

/-- A concrete fast-path flush environment: one-pixel RGB565 frame,
data/command line present, no swap. -/
def envFast : DirtyEnv :=
  { devEntered := true, vmapOk := true, dc := true,
    left := 0, top := 0, fbw := 1, fbh := 1,
    fmt := drm_format.RGB565, swap := false,
    clipPixels := [0x1234], fbBytes := [0x34, 0x12],
    scratchOld := fun _ => 0, srcBeyond := fun _ => 0,
    burstRet := 0 }

/-- The full-frame rectangle of the one-pixel concrete frame. -/
def rect11 : drm_rect := ⟨0, 0, 1, 1⟩

/-- The concrete fast-path flush whose data burst fails with -5. -/
def envFastFail : DirtyEnv := { envFast with burstRet := -5 }

/-- A concrete flush environment carrying an unsupported format on a bus
without a data/command line, forcing the copy path. -/
def envBadFmt : DirtyEnv :=
  { envFast with
    fmt := drm_format.other 3
    dc := false }

/-! ## Helper lemmas -/

theorem txBytes_length (written : List Nat) (rest : Nat → Nat) (n : Nat) :
    (txBytes written rest n).length = n := by
  simp [txBytes]

theorem txBytes_getD (written : List Nat) (rest : Nat → Nat) (n i : Nat)
    (hn : i < n) :
    (txBytes written rest n).getD i 0 = written.getD i (rest i) := by
  simp [txBytes, List.getD_eq_getElem?_getD, List.getElem?_map,
    List.getElem?_range hn]

theorem txBytes_getD_past_written (written : List Nat) (rest : Nat → Nat)
    (n i : Nat) (hw : written.length ≤ i) (hn : i < n) :
    (txBytes written rest n).getD i 0 = rest i := by
  rw [txBytes_getD written rest n i hn]
  exact List.getD_eq_default _ _ hw

theorem flatten_map_const_length (k : Nat) (f : Nat → List Nat)
    (hf : ∀ v, (f v).length = k) (l : List Nat) :
    ((l.map f).flatten).length = k * l.length := by
  induction l with
  | nil => simp
  | cons a t ih =>
      simp only [List.map_cons, List.flatten_cons, List.length_append,
        List.length_cons, ih, hf]
      ring

theorem convCall_not_in_window (f : drm_format) (s : Bool)
    (a b c d e g : Nat) :
    Event.convCall f s ∉ mipi_dbi_set_window_address a b c d e g := by
  simp [mipi_dbi_set_window_address]

theorem dirty_copy_path_true_iff (dc full swap : Bool) (fmt : drm_format) :
    dirty_copy_path dc full swap fmt = true ↔
      (dc = false ∨ full = false ∨ swap = true ∨
        fmt = drm_format.XRGB8888) := by
  simp [dirty_copy_path, Bool.or_eq_true, Bool.not_eq_true']
  tauto

/-! ## Claim theorems -/

/-- C1: for every flush that passes the liveness guard and the vmap, the
copy path (a converter invocation into the scratch buffer) happens if
and only if the bus has no data/command line, or the rectangle is not
the full frame, or byte-swap is requested, or the format is XRGB8888;
otherwise the flush transmits the mapped source bytes directly with no
converter invocation. -/
theorem copy_path_taken_iff (env : DirtyEnv) (rect : drm_rect)
    (hd : env.devEntered = true) (hv : env.vmapOk = true) :
    (Event.convCall env.fmt env.swap ∈ (mipi_dbi18_fb_dirty env rect).events ↔
      (env.dc = false ∨ rect.x2 - rect.x1 ≠ env.fbw ∨
        rect.y2 - rect.y1 ≠ env.fbh ∨ env.swap = true ∨
        env.fmt = drm_format.XRGB8888)) ∧
    ((env.dc = true ∧ rect.x2 - rect.x1 = env.fbw ∧
        rect.y2 - rect.y1 = env.fbh ∧ env.swap = false ∧
        env.fmt ≠ drm_format.XRGB8888) →
      (mipi_dbi18_fb_dirty env rect).events =
        mipi_dbi_set_window_address env.left env.top rect.x1 (rect.x2 - 1)
            rect.y1 (rect.y2 - 1) ++
          [Event.cmdBuf MIPI_DCS_WRITE_MEMORY_START
            (txBytes env.fbBytes env.srcBeyond
              ((rect.x2 - rect.x1) * (rect.y2 - rect.y1) * 3))] ++
          (if env.burstRet ≠ 0 then [Event.errOnce .memFail env.burstRet]
           else [])) := by
  have hfull : ((rect.x2 - rect.x1 == env.fbw) &&
      (rect.y2 - rect.y1 == env.fbh)) = false ↔
      (rect.x2 - rect.x1 ≠ env.fbw ∨ rect.y2 - rect.y1 ≠ env.fbh) := by
    simp only [Bool.and_eq_false_iff, beq_eq_false_iff_ne, ne_eq]
  constructor
  · by_cases hc : dirty_copy_path env.dc
        ((rect.x2 - rect.x1 == env.fbw) && (rect.y2 - rect.y1 == env.fbh))
        env.swap env.fmt = true
    · have hmem : Event.convCall env.fmt env.swap ∈
          (mipi_dbi18_fb_dirty env rect).events := by
        rcases hcp : mipi_dbi18_buf_copy env.fmt env.clipPixels env.swap with
          e | conv <;>
          simp [mipi_dbi18_fb_dirty, hd, hv, hc, hcp]
      have hdisj := (dirty_copy_path_true_iff _ _ _ _).mp hc
      simp only [hmem, true_iff]
      rcases hdisj with h | h | h | h
      · exact Or.inl h
      · rcases hfull.mp h with h1 | h1
        · exact Or.inr (Or.inl h1)
        · exact Or.inr (Or.inr (Or.inl h1))
      · exact Or.inr (Or.inr (Or.inr (Or.inl h)))
      · exact Or.inr (Or.inr (Or.inr (Or.inr h)))
    · have hmem : Event.convCall env.fmt env.swap ∉
          (mipi_dbi18_fb_dirty env rect).events := by
        by_cases hb : env.burstRet = 0 <;>
          simp [mipi_dbi18_fb_dirty, hd, hv, hc, hb,
            mipi_dbi_set_window_address]
      simp only [hmem, false_iff]
      intro hdisj
      apply hc
      apply (dirty_copy_path_true_iff _ _ _ _).mpr
      rcases hdisj with h | h | h | h | h
      · exact Or.inl h
      · exact Or.inr (Or.inl (hfull.mpr (Or.inl h)))
      · exact Or.inr (Or.inl (hfull.mpr (Or.inr h)))
      · exact Or.inr (Or.inr (Or.inl h))
      · exact Or.inr (Or.inr (Or.inr h))
  · rintro ⟨h1, h2, h3, h4, h5⟩
    have hc : dirty_copy_path env.dc
        ((rect.x2 - rect.x1 == env.fbw) && (rect.y2 - rect.y1 == env.fbh))
        env.swap env.fmt = false := by
      simp [dirty_copy_path, h1, h2, h3, h4, h5]
    simp [mipi_dbi18_fb_dirty, hd, hv, hc]

/-- C1 witness: on the concrete fast-path flush the converter is not
invoked. -/
theorem copy_path_taken_iff_witness :
    envFast.devEntered = true ∧ envFast.vmapOk = true ∧
    Event.convCall envFast.fmt envFast.swap ∉
      (mipi_dbi18_fb_dirty envFast rect11).events := by
  refine ⟨rfl, rfl, fun hmem => ?_⟩
  have h := ((copy_path_taken_iff envFast rect11 rfl rfl).1).mp hmem
  simp [envFast, rect11] at h

/-- C2 (evaluation at the failing input): on a one-pixel RGB565 region
holding the white pixel 0xFFFF the converter emits exactly the two
source bytes, with or without swap, two bytes for the pixel rather than
three expanded wire bytes; in general the RGB565 branches write two
bytes per pixel. -/
theorem rgb565_copy_two_bytes_not_expanded :
    mipi_dbi18_buf_copy drm_format.RGB565 [0xFFFF] false =
      .ok [0xFF, 0xFF] ∧
    mipi_dbi18_buf_copy drm_format.RGB565 [0xFFFF] true =
      .ok [0xFF, 0xFF] ∧
    (drm_fb_memcpy [0xFFFF]).length = 2 ∧
    (drm_fb_memcpy [0xFFFF]).length ≠ 3 * 1 :=
  ⟨rfl, rfl, rfl, by decide⟩

/-- C8: once the device has been removed (ili9488_remove calls
drm_dev_unplug), the liveness guard at the top of the flush fails, so
any later flush emits no bus command, no burst and no log, and returns
(the function is void) without an error. -/
theorem update_after_teardown_noop (u : Bool) (env : DirtyEnv)
    (rect : drm_rect) :
    (mipi_dbi18_fb_dirty
        { env with devEntered := drm_dev_enter (ili9488_remove u) }
        rect).events = [] ∧
    (mipi_dbi18_fb_dirty
        { env with devEntered := drm_dev_enter (ili9488_remove u) }
        rect).ret = () := by
  constructor <;>
    simp [mipi_dbi18_fb_dirty, drm_dev_enter, ili9488_remove]

/-- C9 counterexample: converting a solid 0x00FF8040 XRGB8888 buffer
over a 4 by 4 region yields 48 wire bytes whose pixel triplets are
0x40, 0x80, 0xFF — blue, green, red — so the first three wire bytes are
not 0xFF, 0x80, 0x40 as the claim states. -/
theorem xrgb8888_solid_triplet_counterexample :
    mipi_dbi18_buf_copy drm_format.XRGB8888
        (List.replicate 16 0x00FF8040) false =
      .ok (List.flatten (List.replicate 16 [0x40, 0x80, 0xFF])) ∧
    (List.flatten (List.replicate 16 [0x40, 0x80, 0xFF])).length = 48 ∧
    (List.flatten (List.replicate 16 [0x40, 0x80, 0xFF])).take 3 ≠
      [0xFF, 0x80, 0x40] :=
  ⟨rfl, by decide, by decide⟩

/-- C9 amended: the converter drops the unused top byte of each
XRGB8888 pixel and emits the remaining three bytes in little-endian
memory order — blue, green, red — ignoring byte_swap; a solid
0x00FF8040 buffer over a 4 by 4 region yields a 48-byte wire buffer
whose every pixel triplet is 0x40, 0x80, 0xFF. -/
theorem xrgb8888_conversion_bgr (px : List Nat) (swap : Bool) :
    mipi_dbi18_buf_copy drm_format.XRGB8888 px swap =
      .ok ((px.map fun v =>
        [v % 2 ^ 8, v / 2 ^ 8 % 2 ^ 8, v / 2 ^ 16 % 2 ^ 8]).flatten) ∧
    mipi_dbi18_buf_copy drm_format.XRGB8888 px true =
      mipi_dbi18_buf_copy drm_format.XRGB8888 px false ∧
    mipi_dbi18_buf_copy drm_format.XRGB8888
        (List.replicate 16 0x00FF8040) false =
      .ok (List.flatten (List.replicate 16 [0x40, 0x80, 0xFF])) :=
  ⟨rfl, rfl, rfl⟩

theorem be_bytes_of_lt (v : Nat) (hv : v < 2 ^ 16) :
    v % 2 ^ 32 / 2 ^ 8 % 2 ^ 8 = v / 2 ^ 8 ∧ v % 2 ^ 32 % 2 ^ 8 = v % 2 ^ 8 := by
  have h32 : v % 2 ^ 32 = v := Nat.mod_eq_of_lt (by omega)
  rw [h32]
  refine ⟨Nat.mod_eq_of_lt ?_, rfl⟩
  exact (Nat.div_lt_iff_lt_mul (by norm_num)).mpr (by omega)

/-- C3: for a non-empty region whose offset coordinates fit in two
bytes, the window addressing emits exactly two commands, column-address
then page-address, carrying the big-endian two-byte encodings of
x1+left, x2-1+left and y1+top, y2-1+top; and in every flush that
reaches transmission both commands precede the single data burst, on
the copy path and on the fast path alike. -/
theorem window_addressing_bytes (env : DirtyEnv) (rect : drm_rect)
    (left top : Nat) (hx : rect.x1 < rect.x2) (hy : rect.y1 < rect.y2)
    (hxf : rect.x2 - 1 + left < 2 ^ 16) (hyf : rect.y2 - 1 + top < 2 ^ 16)
    (hd : env.devEntered = true) (hv : env.vmapOk = true) :
    (mipi_dbi_set_window_address left top rect.x1 (rect.x2 - 1) rect.y1
        (rect.y2 - 1) =
      [Event.cmd MIPI_DCS_SET_COLUMN_ADDRESS
         [(rect.x1 + left) / 2 ^ 8, (rect.x1 + left) % 2 ^ 8,
          (rect.x2 - 1 + left) / 2 ^ 8, (rect.x2 - 1 + left) % 2 ^ 8],
       Event.cmd MIPI_DCS_SET_PAGE_ADDRESS
         [(rect.y1 + top) / 2 ^ 8, (rect.y1 + top) % 2 ^ 8,
          (rect.y2 - 1 + top) / 2 ^ 8, (rect.y2 - 1 + top) % 2 ^ 8]]) ∧
    (∀ conv,
      mipi_dbi18_buf_copy env.fmt env.clipPixels env.swap = .ok conv →
      (mipi_dbi18_fb_dirty env rect).events =
        (if dirty_copy_path env.dc
            ((rect.x2 - rect.x1 == env.fbw) &&
              (rect.y2 - rect.y1 == env.fbh)) env.swap env.fmt then
          [Event.convCall env.fmt env.swap] ++
            mipi_dbi_set_window_address env.left env.top rect.x1
              (rect.x2 - 1) rect.y1 (rect.y2 - 1) ++
            [Event.cmdBuf MIPI_DCS_WRITE_MEMORY_START
              (txBytes conv env.scratchOld
                ((rect.x2 - rect.x1) * (rect.y2 - rect.y1) * 3))] ++
            (if env.burstRet ≠ 0 then
              [Event.errOnce .memFail env.burstRet] else [])
        else
          mipi_dbi_set_window_address env.left env.top rect.x1
              (rect.x2 - 1) rect.y1 (rect.y2 - 1) ++
            [Event.cmdBuf MIPI_DCS_WRITE_MEMORY_START
              (txBytes env.fbBytes env.srcBeyond
                ((rect.x2 - rect.x1) * (rect.y2 - rect.y1) * 3))] ++
            (if env.burstRet ≠ 0 then
              [Event.errOnce .memFail env.burstRet] else []))) := by
  constructor
  · have hx1 : rect.x1 + left < 2 ^ 16 := by omega
    have hy1 : rect.y1 + top < 2 ^ 16 := by omega
    have bx1 := be_bytes_of_lt (rect.x1 + left) hx1
    have bx2 := be_bytes_of_lt (rect.x2 - 1 + left) hxf
    have by1 := be_bytes_of_lt (rect.y1 + top) hy1
    have by2 := be_bytes_of_lt (rect.y2 - 1 + top) hyf
    simp only [mipi_dbi_set_window_address]
    rw [bx1.1, bx1.2, bx2.1, bx2.2, by1.1, by1.2, by2.1, by2.2]
  · intro conv hconv
    by_cases hc : dirty_copy_path env.dc
        ((rect.x2 - rect.x1 == env.fbw) &&
          (rect.y2 - rect.y1 == env.fbh)) env.swap env.fmt = true
    · simp [mipi_dbi18_fb_dirty, hd, hv, hc, hconv]
    · simp only [Bool.not_eq_true] at hc
      simp [mipi_dbi18_fb_dirty, hd, hv, hc]

/-- C3 witness: the codec bytes and the flush ordering at the concrete
one-pixel region with panel offsets 5 and 7. -/
theorem window_addressing_bytes_witness :
    rect11.x1 < rect11.x2 ∧ rect11.y1 < rect11.y2 ∧
    rect11.x2 - 1 + 5 < 2 ^ 16 ∧ rect11.y2 - 1 + 7 < 2 ^ 16 ∧
    mipi_dbi_set_window_address 5 7 rect11.x1 (rect11.x2 - 1) rect11.y1
        (rect11.y2 - 1) =
      [Event.cmd MIPI_DCS_SET_COLUMN_ADDRESS
         [(rect11.x1 + 5) / 2 ^ 8, (rect11.x1 + 5) % 2 ^ 8,
          (rect11.x2 - 1 + 5) / 2 ^ 8, (rect11.x2 - 1 + 5) % 2 ^ 8],
       Event.cmd MIPI_DCS_SET_PAGE_ADDRESS
         [(rect11.y1 + 7) / 2 ^ 8, (rect11.y1 + 7) % 2 ^ 8,
          (rect11.y2 - 1 + 7) / 2 ^ 8, (rect11.y2 - 1 + 7) % 2 ^ 8]] := by
  refine ⟨by decide, by decide, by decide, by decide, ?_⟩
  exact (window_addressing_bytes envFast rect11 5 7 (by decide) (by decide)
    (by decide) (by decide) rfl rfl).1

theorem buf_copy_ok_of_supported (fmt : drm_format) (px : List Nat)
    (sw : Bool) (h : fmt.supported = true) :
    ∃ out, mipi_dbi18_buf_copy fmt px sw = .ok out := by
  cases fmt with
  | RGB565 => cases sw <;> exact ⟨_, rfl⟩
  | XRGB8888 => exact ⟨_, rfl⟩
  | other n => simp [drm_format.supported] at h

theorem buf_copy_rgb565_length (px : List Nat) (sw : Bool) (out : List Nat)
    (h : mipi_dbi18_buf_copy drm_format.RGB565 px sw = .ok out) :
    out.length = 2 * px.length := by
  cases sw <;> simp [mipi_dbi18_buf_copy] at h <;> rw [← h]
  · exact flatten_map_const_length 2 le16bytes (fun _ => rfl) px
  · exact flatten_map_const_length 2 swab16bytes (fun _ => rfl) px

/-- C5: for an RGB565 flush the converter yields only two bytes per
region pixel while the data burst is three bytes per pixel long; hence,
on the copy path, every transmitted byte past twice the pixel count is
a leftover scratch-buffer byte, and on the fast path (where the mapped
source holds two bytes per pixel) it is a byte read from beyond the
mapped pixel data — in both cases the final width*height bytes of the
burst are not produced from the region's pixel data. -/
theorem rgb565_burst_exceeds_pixel_data (env : DirtyEnv) (rect : drm_rect)
    (hfmt : env.fmt = drm_format.RGB565)
    (hd : env.devEntered = true) (hv : env.vmapOk = true)
    (hpx : env.clipPixels.length =
      (rect.x2 - rect.x1) * (rect.y2 - rect.y1)) :
    (∀ out, mipi_dbi18_buf_copy env.fmt env.clipPixels env.swap = .ok out →
        out.length = 2 * ((rect.x2 - rect.x1) * (rect.y2 - rect.y1))) ∧
    (dirty_copy_path env.dc
        ((rect.x2 - rect.x1 == env.fbw) && (rect.y2 - rect.y1 == env.fbh))
        env.swap env.fmt = true →
      ∀ out, mipi_dbi18_buf_copy env.fmt env.clipPixels env.swap = .ok out →
        Event.cmdBuf MIPI_DCS_WRITE_MEMORY_START
            (txBytes out env.scratchOld
              ((rect.x2 - rect.x1) * (rect.y2 - rect.y1) * 3)) ∈
          (mipi_dbi18_fb_dirty env rect).events ∧
        (txBytes out env.scratchOld
            ((rect.x2 - rect.x1) * (rect.y2 - rect.y1) * 3)).length =
          (rect.x2 - rect.x1) * (rect.y2 - rect.y1) * 3 ∧
        ∀ i, 2 * ((rect.x2 - rect.x1) * (rect.y2 - rect.y1)) ≤ i →
          i < (rect.x2 - rect.x1) * (rect.y2 - rect.y1) * 3 →
          (txBytes out env.scratchOld
              ((rect.x2 - rect.x1) * (rect.y2 - rect.y1) * 3)).getD i 0 =
            env.scratchOld i) ∧
    (dirty_copy_path env.dc
        ((rect.x2 - rect.x1 == env.fbw) && (rect.y2 - rect.y1 == env.fbh))
        env.swap env.fmt = false →
      Event.cmdBuf MIPI_DCS_WRITE_MEMORY_START
          (txBytes env.fbBytes env.srcBeyond
            ((rect.x2 - rect.x1) * (rect.y2 - rect.y1) * 3)) ∈
        (mipi_dbi18_fb_dirty env rect).events ∧
      (env.fbBytes.length =
          2 * ((rect.x2 - rect.x1) * (rect.y2 - rect.y1)) →
        ∀ i, 2 * ((rect.x2 - rect.x1) * (rect.y2 - rect.y1)) ≤ i →
          i < (rect.x2 - rect.x1) * (rect.y2 - rect.y1) * 3 →
          (txBytes env.fbBytes env.srcBeyond
              ((rect.x2 - rect.x1) * (rect.y2 - rect.y1) * 3)).getD i 0 =
            env.srcBeyond i)) := by
  have hlen : ∀ out,
      mipi_dbi18_buf_copy env.fmt env.clipPixels env.swap = .ok out →
      out.length = 2 * ((rect.x2 - rect.x1) * (rect.y2 - rect.y1)) := by
    intro out h
    rw [hfmt] at h
    rw [buf_copy_rgb565_length env.clipPixels env.swap out h, hpx]
  refine ⟨hlen, ?_, ?_⟩
  · intro hc out hok
    refine ⟨?_, txBytes_length _ _ _, ?_⟩
    · simp [mipi_dbi18_fb_dirty, hd, hv, hc, hok]
    · intro i hi hin
      exact txBytes_getD_past_written out env.scratchOld _ i
        (by rw [hlen out hok]; exact hi) hin
  · intro hc
    refine ⟨?_, ?_⟩
    · simp [mipi_dbi18_fb_dirty, hd, hv, hc]
    · intro hfb i hi hin
      exact txBytes_getD_past_written env.fbBytes env.srcBeyond _ i
        (by rw [hfb]; exact hi) hin

/-- C5 witness: the concrete one-pixel RGB565 flush, where the converter
yields two bytes and the burst is three bytes long. -/
theorem rgb565_burst_exceeds_pixel_data_witness :
    envFast.fmt = drm_format.RGB565 ∧
    envFast.clipPixels.length =
      (rect11.x2 - rect11.x1) * (rect11.y2 - rect11.y1) ∧
    (drm_fb_memcpy envFast.clipPixels).length =
      2 * ((rect11.x2 - rect11.x1) * (rect11.y2 - rect11.y1)) := by
  refine ⟨rfl, by decide, ?_⟩
  exact (rgb565_burst_exceeds_pixel_data envFast rect11 rfl rfl rfl
    (by decide)).1 _ rfl

/-- C6 counterexample: the rotation value 45 is neither rejected nor
distinguished — the enable issues exactly the same command stream as
rotation 0, with the default mirror-X address-mode byte and no error of
any kind. -/
theorem rotation_invalid_silent_default :
    sx035hv006_addr_mode 45 = ILI9488_MADCTL_MX ∧
    sx035hv006_enable true PoweronResult.alreadyInit 45 envFast =
      sx035hv006_enable true PoweronResult.alreadyInit 0 envFast :=
  ⟨rfl, rfl⟩

/-- C6 amended: rotations 0, 90, 180 and 270 map to mirror-X,
row/column-swap, mirror-Y, and row/column-swap + mirror-Y + mirror-X
respectively, and the mapped byte is issued as the address-mode command
right before the enabling flush; any other rotation value silently
falls back to the 0-degree mapping (mirror-X) — no configuration error
is raised at bind or enable time. -/
theorem rotation_mapping_with_silent_default (r : Nat) (env : DirtyEnv)
    (h90 : r ≠ 90) (h180 : r ≠ 180) (h270 : r ≠ 270) :
    sx035hv006_addr_mode 0 = ILI9488_MADCTL_MX ∧
    sx035hv006_addr_mode 90 = ILI9488_MADCTL_MV ∧
    sx035hv006_addr_mode 180 = ILI9488_MADCTL_MY ∧
    sx035hv006_addr_mode 270 =
      (ILI9488_MADCTL_MV ||| ILI9488_MADCTL_MY ||| ILI9488_MADCTL_MX) ∧
    sx035hv006_addr_mode r = ILI9488_MADCTL_MX ∧
    sx035hv006_enable true PoweronResult.needsInit r env =
      ili9488_init_commands ++
        [Event.cmd ILI9488_CMD_SET_ADDRESS_MODE [ILI9488_MADCTL_MX]] ++
        mipi_dbi18_enable_flush env := by
  have hr : sx035hv006_addr_mode r = ILI9488_MADCTL_MX := by
    unfold sx035hv006_addr_mode
    split <;> simp_all
  refine ⟨rfl, rfl, rfl, rfl, hr, ?_⟩
  simp [sx035hv006_enable, hr]

/-- C6 witness: the amended mapping at the concrete out-of-table
rotation 45. -/
theorem rotation_mapping_with_silent_default_witness :
    (45 : Nat) ≠ 90 ∧ (45 : Nat) ≠ 180 ∧ (45 : Nat) ≠ 270 ∧
    sx035hv006_addr_mode 45 = ILI9488_MADCTL_MX := by
  refine ⟨by decide, by decide, by decide, ?_⟩
  exact (rotation_mapping_with_silent_default 45 envFast (by decide)
    (by decide) (by decide)).2.2.2.2.1

/-- C7 counterexample: mipi_dbi18_fb_dirty is declared void, so on a
flush whose data burst fails with code -5 the caller receives exactly
the same (empty) return value as on a successful flush, even though the
two runs are observably different — the failure code is logged, not
returned. -/
theorem burst_failure_not_returned :
    (mipi_dbi18_fb_dirty envFastFail rect11).ret =
      (mipi_dbi18_fb_dirty envFast rect11).ret ∧
    (mipi_dbi18_fb_dirty envFastFail rect11).events ≠
      (mipi_dbi18_fb_dirty envFast rect11).events :=
  ⟨rfl, by decide⟩

/-- C7 amended: when the data burst of a flush fails, the failure is
logged exactly once through the rate-limited error log, the burst is
attempted exactly once (no retry), and the flush — a void function —
returns nothing to its caller. -/
theorem burst_failure_logged_once_no_retry (env : DirtyEnv)
    (rect : drm_rect) (hd : env.devEntered = true)
    (hv : env.vmapOk = true) (hs : env.fmt.supported = true)
    (he : env.burstRet ≠ 0) :
    (mipi_dbi18_fb_dirty env rect).events.count
        (Event.errOnce .memFail env.burstRet) = 1 ∧
    (mipi_dbi18_fb_dirty env rect).events.countP
        (fun ev => ev.isBurst) = 1 ∧
    (mipi_dbi18_fb_dirty env rect).ret = () := by
  obtain ⟨out, hok⟩ :=
    buf_copy_ok_of_supported env.fmt env.clipPixels env.swap hs
  by_cases hc : dirty_copy_path env.dc
      ((rect.x2 - rect.x1 == env.fbw) && (rect.y2 - rect.y1 == env.fbh))
      env.swap env.fmt = true
  · refine ⟨?_, ?_, rfl⟩ <;>
      simp [mipi_dbi18_fb_dirty, hd, hv, hc, hok, he,
        mipi_dbi_set_window_address, List.count_append, List.count_cons,
        List.countP_append, List.countP_cons, Event.isBurst]
  · simp only [Bool.not_eq_true] at hc
    refine ⟨?_, ?_, rfl⟩ <;>
      simp [mipi_dbi18_fb_dirty, hd, hv, hc, he,
        mipi_dbi_set_window_address, List.count_append, List.count_cons,
        List.countP_append, List.countP_cons, Event.isBurst]

/-- C7 witness: the amended statement at the concrete failing flush. -/
theorem burst_failure_logged_once_no_retry_witness :
    envFastFail.burstRet ≠ 0 ∧ envFastFail.fmt.supported = true ∧
    (mipi_dbi18_fb_dirty envFastFail rect11).events.count
        (Event.errOnce .memFail envFastFail.burstRet) = 1 := by
  refine ⟨by decide, rfl, ?_⟩
  exact (burst_failure_logged_once_no_retry envFastFail rect11 rfl rfl rfl
    (by decide)).1

/-- C10: the converter rejects every format other than RGB565 and
XRGB8888 with -EINVAL, and a flush whose conversion fails that way puts
nothing on the bus: its whole trace is the converter invocation and the
two rate-limited error logs — no addressing command and no data
burst. -/
theorem unsupported_format_rejected (env : DirtyEnv) (rect : drm_rect)
    (fourcc : Nat) (hd : env.devEntered = true) (hv : env.vmapOk = true)
    (hfmt : env.fmt = drm_format.other fourcc)
    (hc : dirty_copy_path env.dc
        ((rect.x2 - rect.x1 == env.fbw) && (rect.y2 - rect.y1 == env.fbh))
        env.swap env.fmt = true) :
    (∀ px sw, mipi_dbi18_buf_copy (drm_format.other fourcc) px sw =
        .error (-EINVAL)) ∧
    (mipi_dbi18_fb_dirty env rect).events =
      [Event.convCall env.fmt env.swap,
       Event.errOnce .copyFail (-EINVAL),
       Event.errOnce .memFail (-EINVAL)] ∧
    (mipi_dbi18_fb_dirty env rect).events.all
        (fun ev => !ev.isBusTraffic) = true := by
  have hbc : mipi_dbi18_buf_copy env.fmt env.clipPixels env.swap =
      .error (-EINVAL) := by
    rw [hfmt]; rfl
  have hev : (mipi_dbi18_fb_dirty env rect).events =
      [Event.convCall env.fmt env.swap,
       Event.errOnce .copyFail (-EINVAL),
       Event.errOnce .memFail (-EINVAL)] := by
    simp [mipi_dbi18_fb_dirty, hd, hv, hc, hbc, EINVAL]
  refine ⟨fun px sw => rfl, hev, ?_⟩
  rw [hev]
  rfl

/-- C10 witness: the concrete unsupported-format flush rejects and puts
nothing on the bus. -/
theorem unsupported_format_rejected_witness :
    envBadFmt.fmt = drm_format.other 3 ∧
    mipi_dbi18_buf_copy (drm_format.other 3) [] false =
      .error (-EINVAL) ∧
    (mipi_dbi18_fb_dirty envBadFmt rect11).events.all
        (fun ev => !ev.isBusTraffic) = true := by
  refine ⟨rfl, ?_, ?_⟩
  · exact (unsupported_format_rejected envBadFmt rect11 3 rfl rfl rfl
      (by decide)).1 [] false
  · exact (unsupported_format_rejected envBadFmt rect11 3 rfl rfl rfl
      (by decide)).2.2

/-- C4: the enable sequence.  When power-on reports needs-init the
device issues, in this strict order: display-off, positive gamma (15
bytes), negative gamma (15 bytes), power-control 1 and 2, VCOM control,
memory-access-control, pixel-format 18-bit, interface-mode, frame-rate,
inversion, function-control, entry-mode, adjust-control, sleep-out
followed by an unconditional 120 ms delay, normal-display-mode-on and
display-on followed by a 100 ms delay, then the rotation-derived
address-mode command, then exactly one full-frame flush, then the
backlight enable.  When power-on reports already-initialized,
everything before the address-mode command is skipped.  When power-on
reports a hard failure, the enable aborts after the error log, with no
command and no backlight enable. -/
theorem sx035hv006_enable_sequence (rotation : Nat) (code : Int)
    (env : DirtyEnv) (hd : env.devEntered = true) :
    sx035hv006_enable true PoweronResult.needsInit rotation env =
      [Event.cmd ILI9488_CMD_DISPLAY_OFF [],
       Event.cmd ILI9488_CMD_POSITIVE_GAMMA_CORRECTION
         [0x00, 0x03, 0x09, 0x08, 0x16, 0x0a, 0x3f, 0x78, 0x4c, 0x09,
          0x0a, 0x08, 0x16, 0x1a, 0x0f],
       Event.cmd ILI9488_CMD_NEGATIVE_GAMMA_CORRECTION
         [0x00, 0x16, 0x19, 0x03, 0x0f, 0x05, 0x32, 0x45, 0x46, 0x04,
          0x0e, 0x0d, 0x35, 0x37, 0x0f],
       Event.cmd ILI9488_CMD_POWER_CONTROL_1 [0x17, 0x15],
       Event.cmd ILI9488_CMD_POWER_CONTROL_2 [0x41],
       Event.cmd ILI9488_CMD_VCOM_CONTROL_1 [0x00, 0x12, 0x80],
       Event.cmd ILI9488_CMD_MEMORY_ACCESS_CONTROL [0x48],
       Event.cmd ILI9488_CMD_COLMOD_PIXEL_FORMAT_SET
         [MIPI_DCS_PIXEL_FMT_18BIT <<< 1 ||| MIPI_DCS_PIXEL_FMT_18BIT],
       Event.cmd ILI9488_CMD_INTERFACE_MODE_CONTROL [0x00],
       Event.cmd ILI9488_CMD_FRAME_RATE_CONTROL_NORMAL [0xA0],
       Event.cmd ILI9488_CMD_DISPLAY_INVERSION_CONTROL [0x02],
       Event.cmd ILI9488_CMD_DISPLAY_FUNCTION_CONTROL [0x02, 0x02, 0x3B],
       Event.cmd ILI9488_CMD_ENTRY_MODE_SET [0xC6],
       Event.cmd ILI9488_CMD_ADJUST_CONTROL_3 [0xa9, 0x51, 0x2c, 0x82],
       Event.cmd ILI9488_CMD_SLEEP_OUT [],
       Event.delayMs 120,
       Event.cmd ILI9488_CMD_NORMAL_DISP_MODE_ON [],
       Event.cmd ILI9488_CMD_DISPLAY_ON [],
       Event.delayMs 100,
       Event.cmd ILI9488_CMD_SET_ADDRESS_MODE
         [sx035hv006_addr_mode rotation]] ++
        (mipi_dbi18_fb_dirty env ⟨0, 0, env.fbw, env.fbh⟩).events ++
        [Event.backlightOn] ∧
    sx035hv006_enable true PoweronResult.alreadyInit rotation env =
      [Event.cmd ILI9488_CMD_SET_ADDRESS_MODE
         [sx035hv006_addr_mode rotation]] ++
        (mipi_dbi18_fb_dirty env ⟨0, 0, env.fbw, env.fbh⟩).events ++
        [Event.backlightOn] ∧
    sx035hv006_enable true (PoweronResult.failed code) rotation env =
      [Event.errOnce .poweronFail code] ∧
    Event.backlightOn ∉
      sx035hv006_enable true (PoweronResult.failed code) rotation env := by
  refine ⟨?_, ?_, rfl, by simp [sx035hv006_enable]⟩ <;>
    simp [sx035hv006_enable, mipi_dbi18_enable_flush, hd,
      ili9488_init_commands]

/-- C4 witness: the enable sequence at the concrete environment with
rotation 0 and failure code -1. -/
theorem sx035hv006_enable_sequence_witness :
    envFast.devEntered = true ∧
    sx035hv006_enable true (PoweronResult.failed (-1)) 0 envFast =
      [Event.errOnce .poweronFail (-1)] := by
  refine ⟨rfl, ?_⟩
  exact (sx035hv006_enable_sequence 0 (-1) envFast rfl).2.2.1
